import Mathlib

/-!
# Verification of the lung-cancer survey Dash dashboard (`app.py`)

Shallow embedding of `app.py`, the single source file of the repository.
The program loads a CSV of survey rows (`GENDER`, `AGE`, thirteen binary
attribute columns converted to numbers at startup, and the outcome label
`LUNG_CANCER`), builds a Dash layout of controls and graphs, and registers
four callbacks that filter the rows by the selected gender and age range and
build figures / a text summary from the filtered subset.

Modelling conventions:
* a data-frame row is the structure `Row`; the loaded frame (after the
  one-time `pd.to_numeric` conversion of the binary columns) is a `List Row`
  held in `AppState`;
* the `age-range-slider` value `[lo, hi]` is the pair `(lo, hi) : Int × Int`
  and a dropdown value that may be Python `None` is an `Option String`;
* a callback is a function from its inputs and the application state to a
  `CallbackResult` paired with the state after the call, mirroring that the
  Python bodies read the module-level `df` and never assign to it;
* `raise PreventUpdate` is the result `CallbackResult.preventUpdate` and an
  uncaught exception (the `ZeroDivisionError` of `update_summary` on an
  empty subset) is `CallbackResult.raised`;
* third-party chart constructors (`px.scatter`, `px.bar`, `go.Heatmap`) are
  modelled as `Figure` constructors recording the arguments the code passes;
  the floating-point Pearson correlation of `DataFrame.corr` is abstracted
  to the labelled numeric matrix it is computed from (`CorrMatrix`), which
  determines it — no claim concerns its numeric content.
-/

/-- One row of `survey lung cancer.csv` after the startup conversion of the
thirteen binary columns to numbers (`df[binary_columns].apply(pd.to_numeric)`,
app.py lines 13–16).  Field order follows the dataset's column order, which
the source fixes for the binary columns in `binary_columns`. -/
structure Row where
  GENDER : String
  AGE : Int
  SMOKING : Int
  YELLOW_FINGERS : Int
  ANXIETY : Int
  PEER_PRESSURE : Int
  CHRONIC_DISEASE : Int
  FATIGUE : Int
  ALLERGY : Int
  WHEEZING : Int
  ALCOHOL_CONSUMING : Int
  COUGHING : Int
  SHORTNESS_OF_BREATH : Int
  SWALLOWING_DIFFICULTY : Int
  CHEST_PAIN : Int
  LUNG_CANCER : String
deriving DecidableEq, Repr

/-- The application state: the module-level data frame `df` (app.py line 10,
after the line-16 numeric conversion).  Nothing else in the program is
mutable state. -/
structure AppState where
  df : List Row
deriving DecidableEq, Repr

/-- The result of invoking a Dash callback: a returned value, a
`dash.exceptions.PreventUpdate`, or an uncaught Python exception
(recorded by its class name). -/
inductive CallbackResult (α : Type) where
  | ok (a : α)
  | preventUpdate
  | raised (exc : String)
deriving DecidableEq, Repr

/-- Python truthiness test `not x` for a dropdown value: `None` and the
empty string are falsy (app.py line 82 `if not x_col or not y_col`). -/
def pyFalsy : Option String → Bool
  | none => true
  | some s => s == ""

/-- The correlation matrix `filtered_df.drop(['GENDER','LUNG_CANCER'], axis=1).corr()`
(app.py line 123), abstracted to its inputs: pandas computes a floating-point
Pearson matrix from the labelled numeric columns, and that numeric content is
outside every claim, so the model records the column labels and the numeric
rows the correlation is computed from. -/
structure CorrMatrix where
  columns : List String
  source : List (List Int)
deriving DecidableEq, Repr

/-- A plotly figure as this program builds one, recording the arguments the
source passes to the chart constructor.  `pieFig` is the pie-chart form
(`px.pie`) so that its absence from this program is expressible. -/
inductive Figure where
  | scatterFig (data : List Row) (x y color title : String) (hover : List String)
  | barFig (xs : List String) (ys : List Int) (title : String)
  | heatmapFig (corr : CorrMatrix) (colorscale : String) (zmin zmax : Int) (title : String)
  | pieFig (data : List Row) (names values title : String)
deriving DecidableEq, Repr

/-- Whether a figure is a pie chart. -/
def Figure.isPie : Figure → Bool
  | .pieFig _ _ _ _ => true
  | _ => false

/-- The kind of chart a figure renders. -/
inductive FigKind where
  | scatter
  | bar
  | heatmap
  | pie
deriving DecidableEq, Repr

/-- The chart kind of a figure. -/
def Figure.kind : Figure → FigKind
  | .scatterFig _ _ _ _ _ _ => .scatter
  | .barFig _ _ _ => .bar
  | .heatmapFig _ _ _ _ _ => .heatmap
  | .pieFig _ _ _ _ => .pie

/-- The symptom columns of the bar chart, with their projections, in the
order of the source's `symptoms` list (app.py lines 103–105). -/
def symptoms : List (String × (Row → Int)) :=
  [("YELLOW_FINGERS", Row.YELLOW_FINGERS), ("ANXIETY", Row.ANXIETY),
   ("PEER_PRESSURE", Row.PEER_PRESSURE), ("CHRONIC DISEASE", Row.CHRONIC_DISEASE),
   ("FATIGUE", Row.FATIGUE), ("ALLERGY", Row.ALLERGY), ("WHEEZING", Row.WHEEZING),
   ("ALCOHOL CONSUMING", Row.ALCOHOL_CONSUMING), ("COUGHING", Row.COUGHING),
   ("SHORTNESS OF BREATH", Row.SHORTNESS_OF_BREATH),
   ("SWALLOWING DIFFICULTY", Row.SWALLOWING_DIFFICULTY), ("CHEST PAIN", Row.CHEST_PAIN)]

/-- The columns `filtered_df.drop(['GENDER','AGE','LUNG_CANCER'], axis=1)`
keeps, in the dataset's column order: `SMOKING` followed by the twelve
symptom columns (app.py line 152). -/
def summaryColumns : List (String × (Row → Int)) :=
  ("SMOKING", Row.SMOKING) :: symptoms

/-- The column labels `filtered_df.drop(['GENDER','LUNG_CANCER'], axis=1)`
keeps for the correlation heatmap: `AGE` followed by the thirteen numeric
binary columns (app.py line 123). -/
def corrColumns : List String :=
  "AGE" :: summaryColumns.map Prod.fst

/-- The numeric columns of a row in `corrColumns` order, the data the
correlation heatmap is computed from. -/
def numericRow (r : Row) : List Int :=
  r.AGE :: summaryColumns.map (fun c => c.2 r)

/-- `series.sum()` for one column over the filtered rows. -/
def columnSum (f : Row → Int) (rows : List Row) : Int :=
  (rows.map f).foldl (· + ·) 0

/-- Insert a labelled count into a list sorted by descending count
(helper for `sort_values(ascending=False)`). -/
def insertDesc (p : String × Int) : List (String × Int) → List (String × Int)
  | [] => [p]
  | q :: qs => if q.2 ≤ p.2 then p :: q :: qs else q :: insertDesc p qs

/-- `series.sort_values(ascending=False)` on a labelled count series.
pandas uses an unstable quicksort, so the order of equal counts is
unspecified there; no claim depends on the order of ties. -/
def sort_values_desc : List (String × Int) → List (String × Int)
  | [] => []
  | p :: ps => insertDesc p (sort_values_desc ps)

/-- `series.idxmax()` on a labelled series: the label of the first maximal
entry.  pandas raises on an empty series; the program only applies it to the
thirteen-entry column-sum series, so the empty case (arbitrarily `""`) is
never reached. -/
def idxmax : List (String × Int) → String
  | [] => ""
  | p :: ps => (ps.foldl (fun best q => if best.2 < q.2 then q else best) p).1

/-- `series.value_counts().get('YES', 0)` on the `LUNG_CANCER` column: the
number of filtered rows whose label is `"YES"` (0 when none) (app.py
line 148). -/
def cancerCount (rows : List Row) : Nat :=
  (rows.filter (fun r => r.LUNG_CANCER == "YES")).length

/-! ## The layout (app.py lines 23–71)

The `html.Div` containers in the layout carry only styling, so the layout is
modelled as its list of content components in document order.  `Component`
models the `dash_core_components` / `dash_html_components` vocabulary the
source draws on; `checklist` is `dcc.Checklist`, the checklist control of
that vocabulary, so that its absence from this layout is expressible. -/

/-- A layout component.  Dropdown and radio options in the source are
label/value dicts with label = value, modelled as the value list; style
dictionaries are presentation-only and omitted. -/
inductive Component where
  | h1 (text : String)
  | dropdown (id : String) (options : List String) (value : String)
  | graph (id : String)
  | radioItems (id : String) (options : List String) (value : String)
  | rangeSlider (id : String) (min max step : Int) (marks : List Int) (value : List Int)
  | checklist (id : String) (options : List String) (value : List String)
  | divWithId (id : String)
deriving DecidableEq, Repr

/-- Whether a component is a `dcc.Checklist`. -/
def Component.isChecklist : Component → Bool
  | .checklist _ _ _ => true
  | _ => false

/-- Whether a component is a `dcc.RadioItems`. -/
def Component.isRadioItems : Component → Bool
  | .radioItems _ _ _ => true
  | _ => false

/-- Whether a component is a `dcc.RangeSlider`. -/
def Component.isRangeSlider : Component → Bool
  | .rangeSlider _ _ _ _ _ _ => true
  | _ => false

/-- Whether a component is a `dcc.Dropdown`. -/
def Component.isDropdown : Component → Bool
  | .dropdown _ _ _ => true
  | _ => false

/-- The slider marks `range(int(df['AGE'].min()), int(df['AGE'].max()) + 1, 5)`
(app.py line 62): ages from the minimum to the maximum in steps of 5. -/
def sliderMarks (mn mx : Int) : List Int :=
  (List.range' 0 ((mx + 1 - mn).toNat / 5 + if (mx + 1 - mn).toNat % 5 == 0 then 0 else 1) 1).map
    (fun k => mn + 5 * k)

/-- The dashboard layout (app.py lines 23–71), flattened to document order.
`columns` is `df.columns` of the loaded CSV and `ageMin`/`ageMax` are
`df['AGE'].min()`/`df['AGE'].max()`; the CSV file is not part of the
repository, so they are parameters of the model. -/
def app_layout (columns : List String) (ageMin ageMax : Int) : List Component :=
  [Component.h1 "Lung Cancer Survey Analysis",
   Component.dropdown "x-axis-dropdown" (columns.filter (fun c => c != "LUNG_CANCER")) "AGE",
   Component.dropdown "y-axis-dropdown" (columns.filter (fun c => c != "LUNG_CANCER")) "SMOKING",
   Component.graph "scatter-plot",
   Component.radioItems "gender-filter" ["All", "M", "F"] "All",
   Component.rangeSlider "age-range-slider" ageMin ageMax 1 (sliderMarks ageMin ageMax)
     [ageMin, ageMax],
   Component.graph "symptoms-bar-chart",
   Component.graph "correlation-heatmap",
   Component.divWithId "summary"]

/-- A Dash application: `dash.Dash(__name__)` together with its layout
(a function of the loaded dataset's columns and age bounds). -/
structure DashApp where
  name : String
  layoutOf : List String → Int → Int → List Component

/-- The one Dash app the source constructs (app.py lines 19–23):
`app = dash.Dash(__name__)` with the layout above. -/
def lungCancerSurveyApp : DashApp :=
  DashApp.mk "app" app_layout

/-- The Dash applications constructed by the repository's source: `app.py`,
its only source file, instantiates exactly one. -/
def repositoryDashApps : List DashApp :=
  [lungCancerSurveyApp]

/-! ## The four callbacks (app.py lines 73–167)

Each callback body repeats the same two filtering lines
(`filtered_df = df[(df['AGE'] >= age_range[0]) & (df['AGE'] <= age_range[1])]`
then `if gender != 'All': filtered_df = filtered_df[filtered_df['GENDER'] == gender]`);
the four copies are transcribed separately, one per callback, mirroring the
source's repetition. -/

/-- The filtered frame `update_scatter_plot` computes (app.py lines 84–86). -/
def update_scatter_plot_filtered (gender : String) (lo hi : Int) (rows : List Row) : List Row :=
  let filtered_df := rows.filter (fun r => decide (lo ≤ r.AGE) && decide (r.AGE ≤ hi))
  if gender != "All" then filtered_df.filter (fun r => r.GENDER == gender) else filtered_df

/-- The filtered frame `update_symptoms_bar_chart` computes (app.py lines 99–101). -/
def update_symptoms_bar_chart_filtered (gender : String) (lo hi : Int) (rows : List Row) : List Row :=
  let filtered_df := rows.filter (fun r => decide (lo ≤ r.AGE) && decide (r.AGE ≤ hi))
  if gender != "All" then filtered_df.filter (fun r => r.GENDER == gender) else filtered_df

/-- The filtered frame `update_correlation_heatmap` computes (app.py lines 119–121). -/
def update_correlation_heatmap_filtered (gender : String) (lo hi : Int) (rows : List Row) : List Row :=
  let filtered_df := rows.filter (fun r => decide (lo ≤ r.AGE) && decide (r.AGE ≤ hi))
  if gender != "All" then filtered_df.filter (fun r => r.GENDER == gender) else filtered_df

/-- The filtered frame `update_summary` computes (app.py lines 143–145). -/
def update_summary_filtered (gender : String) (lo hi : Int) (rows : List Row) : List Row :=
  let filtered_df := rows.filter (fun r => decide (lo ≤ r.AGE) && decide (r.AGE ≤ hi))
  if gender != "All" then filtered_df.filter (fun r => r.GENDER == gender) else filtered_df

/-- `update_scatter_plot` (app.py lines 81–90): raises `PreventUpdate` when
the x- or y-axis selection is missing (Python-falsy: `None` or the empty
string), otherwise returns the `px.scatter` figure of the filtered subset,
coloured by `LUNG_CANCER`, titled `x vs y`, with `AGE`/`GENDER` hover data.
The body reads `df` and assigns only locals, so the state is returned
unchanged. -/
def update_scatter_plot (x_col y_col : Option String) (gender : String)
    (age_range : Int × Int) (s : AppState) : CallbackResult Figure × AppState :=
  if pyFalsy x_col || pyFalsy y_col then (CallbackResult.preventUpdate, s)
  else
    let filtered_df := update_scatter_plot_filtered gender age_range.1 age_range.2 s.df
    let x := x_col.getD ""
    let y := y_col.getD ""
    (CallbackResult.ok
      (Figure.scatterFig filtered_df x y "LUNG_CANCER" (x ++ " vs " ++ y) ["AGE", "GENDER"]), s)

/-- `update_symptoms_bar_chart` (app.py lines 98–110): sums each symptom
column over the filtered subset, sorts the counts descending, and returns
the `px.bar` figure of the sorted labelled counts.  The state is returned
unchanged. -/
def update_symptoms_bar_chart (gender : String) (age_range : Int × Int)
    (s : AppState) : CallbackResult Figure × AppState :=
  let filtered_df := update_symptoms_bar_chart_filtered gender age_range.1 age_range.2 s.df
  let symptom_counts :=
    sort_values_desc (symptoms.map (fun c => (c.1, columnSum c.2 filtered_df)))
  (CallbackResult.ok
    (Figure.barFig (symptom_counts.map Prod.fst) (symptom_counts.map Prod.snd)
      "Prevalence of Symptoms"), s)

/-- `update_correlation_heatmap` (app.py lines 118–134): drops `GENDER` and
`LUNG_CANCER`, takes the correlation matrix of the remaining numeric columns
of the filtered subset, and returns the `go.Heatmap` figure of it with the
`RdBu` colorscale over [-1, 1].  The state is returned unchanged. -/
def update_correlation_heatmap (gender : String) (age_range : Int × Int)
    (s : AppState) : CallbackResult Figure × AppState :=
  let filtered_df := update_correlation_heatmap_filtered gender age_range.1 age_range.2 s.df
  let corr_matrix := CorrMatrix.mk corrColumns (filtered_df.map numericRow)
  (CallbackResult.ok
    (Figure.heatmapFig corr_matrix "RdBu" (-1) 1 "Correlation Heatmap of Factors"), s)

/-- The text `update_summary` interpolates into its local `summary` (app.py
lines 154–167).  Python renders `cancer_percentage` and `avg_age` with `.2f`
floating-point formatting; the model keeps the exact rationals, rendered
with `toString` — the claims concern what the summary reports, not the
rounding of its rendering. -/
def summaryText (total_count : Nat) (cancer_count : Nat) (cancer_percentage avg_age : ℚ)
    (top_symptom : String) : String :=
  "\n    Based on the selected filters:\n    - Total individuals: " ++ toString total_count ++
  "\n    - Number of lung cancer cases: " ++ toString cancer_count ++
  " (" ++ toString cancer_percentage ++ "%)\n    - Average age: " ++ toString avg_age ++
  " years\n    - Most common symptom: " ++ top_symptom ++
  "\n    \n    Key observations:\n    " ++
  "1. The scatter plot allows comparison of different factors, helping identify potential correlations with lung cancer.\n    " ++
  "2. The symptoms bar chart highlights the most prevalent symptoms in the selected group.\n    " ++
  "3. The correlation heatmap provides an overview of how different factors relate to each other.\n    \n    " ++
  "Remember that this is survey data and may not represent the entire population. Consult with healthcare professionals for medical advice.\n    "

/-- `update_summary` (app.py lines 142–167): filters the rows, counts them,
counts the `LUNG_CANCER = 'YES'` rows, and computes
`cancer_percentage = (cancer_count / total_count) * 100` — a Python
`ZeroDivisionError` when the filtered subset is empty.  Otherwise it
computes the average age and the most common of the thirteen summed
columns, interpolates them into the local string `summary`, and then ends:
the source has no `return` statement, so the callback returns Python
`None`, modelled as `none`.  The state is returned unchanged. -/
def update_summary (gender : String) (age_range : Int × Int)
    (s : AppState) : CallbackResult (Option String) × AppState :=
  let filtered_df := update_summary_filtered gender age_range.1 age_range.2 s.df
  let total_count := filtered_df.length
  let cancer_count := cancerCount filtered_df
  if total_count == 0 then (CallbackResult.raised "ZeroDivisionError", s)
  else
    let cancer_percentage : ℚ := ((cancer_count : ℚ) / (total_count : ℚ)) * 100
    let avg_age : ℚ := ((columnSum Row.AGE filtered_df : ℚ)) / (total_count : ℚ)
    let top_symptom :=
      idxmax (summaryColumns.map (fun c => (c.1, columnSum c.2 filtered_df)))
    let summary := summaryText total_count cancer_count cancer_percentage avg_age top_symptom
    (CallbackResult.ok none, s)

/-- The figures the three graph callbacks produce for one selection, in
layout order (the summary callback outputs text, not a figure). -/
def figuresProduced (x_col y_col : Option String) (gender : String)
    (age_range : Int × Int) (s : AppState) : List Figure :=
  (match (update_scatter_plot x_col y_col gender age_range s).1 with
   | CallbackResult.ok f => [f]
   | _ => []) ++
  (match (update_symptoms_bar_chart gender age_range s).1 with
   | CallbackResult.ok f => [f]
   | _ => []) ++
  (match (update_correlation_heatmap gender age_range s).1 with
   | CallbackResult.ok f => [f]
   | _ => [])

/-- A small concrete dataset in the shape of `survey lung cancer.csv`, for
evaluating the callbacks at concrete inputs (the CSV itself is not a file of
the repository). -/
def sampleRows : List Row :=
  [Row.mk "M" 65 1 2 2 1 1 2 1 2 2 2 2 2 2 "YES",
   Row.mk "F" 55 1 1 1 2 1 2 2 1 1 2 2 1 1 "NO",
   Row.mk "M" 70 2 2 1 1 2 2 1 1 2 1 2 2 1 "YES"]

/-- The sample application state. -/
def sampleState : AppState :=
  AppState.mk sampleRows

/-! ## Theorems -/

/-- The predicate the shared filtering lines implement: the row's age is in
the selected range and the gender matches the selection (vacuously when the
selection is `All`). -/
def matchesFilter (g : String) (lo hi : Int) (r : Row) : Prop :=
  (lo ≤ r.AGE ∧ r.AGE ≤ hi) ∧ (g = "All" ∨ r.GENDER = g)

lemma mem_mask_filtered (g : String) (lo hi : Int) (rows : List Row) (r : Row) :
    r ∈ update_scatter_plot_filtered g lo hi rows ↔ r ∈ rows ∧ matchesFilter g lo hi r := by
  unfold update_scatter_plot_filtered matchesFilter
  by_cases hg : g = "All"
  · simp [hg, List.mem_filter]
  · have hg' : (g != "All") = true := by simpa using hg
    simp [hg', List.mem_filter, hg]
    tauto

/-- C1: every callback computes its filtered subset by boolean masking on
column predicates — a row is in the filtered subset of each of
`update_scatter_plot`, `update_symptoms_bar_chart`,
`update_correlation_heatmap` and `update_summary` if and only if it is a
row of the loaded dataset with `lo ≤ AGE ≤ hi` and (the gender selection is
`All`, or its `GENDER` equals the selection). -/
theorem callbacks_filter_by_boolean_mask (g : String) (lo hi : Int)
    (rows : List Row) (r : Row) :
    (r ∈ update_scatter_plot_filtered g lo hi rows ↔
      r ∈ rows ∧ (lo ≤ r.AGE ∧ r.AGE ≤ hi) ∧ (g = "All" ∨ r.GENDER = g))
    ∧ (r ∈ update_symptoms_bar_chart_filtered g lo hi rows ↔
      r ∈ rows ∧ (lo ≤ r.AGE ∧ r.AGE ≤ hi) ∧ (g = "All" ∨ r.GENDER = g))
    ∧ (r ∈ update_correlation_heatmap_filtered g lo hi rows ↔
      r ∈ rows ∧ (lo ≤ r.AGE ∧ r.AGE ≤ hi) ∧ (g = "All" ∨ r.GENDER = g))
    ∧ (r ∈ update_summary_filtered g lo hi rows ↔
      r ∈ rows ∧ (lo ≤ r.AGE ∧ r.AGE ≤ hi) ∧ (g = "All" ∨ r.GENDER = g)) :=
  ⟨mem_mask_filtered g lo hi rows r, mem_mask_filtered g lo hi rows r,
   mem_mask_filtered g lo hi rows r, mem_mask_filtered g lo hi rows r⟩

/-- C7: the four callbacks repeat one and the same filtering computation —
the filtered subsets of `update_scatter_plot`, `update_symptoms_bar_chart`,
`update_correlation_heatmap` and `update_summary` are equal at every gender
selection, age range and dataset. -/
theorem four_filter_copies_identical (g : String) (lo hi : Int) (rows : List Row) :
    update_scatter_plot_filtered g lo hi rows = update_symptoms_bar_chart_filtered g lo hi rows
    ∧ update_symptoms_bar_chart_filtered g lo hi rows
        = update_correlation_heatmap_filtered g lo hi rows
    ∧ update_correlation_heatmap_filtered g lo hi rows
        = update_summary_filtered g lo hi rows :=
  ⟨rfl, rfl, rfl⟩

/-- C6: the loaded data frame is never mutated — every invocation of every
callback, at every input and every state, returns the application state
(the frame `df` as converted at startup) unchanged; each callback only
derives new filtered frames and figures. -/
theorem callbacks_leave_df_unchanged (x_col y_col : Option String) (gender : String)
    (age_range : Int × Int) (s : AppState) :
    (update_scatter_plot x_col y_col gender age_range s).2 = s
    ∧ (update_symptoms_bar_chart gender age_range s).2 = s
    ∧ (update_correlation_heatmap gender age_range s).2 = s
    ∧ (update_summary gender age_range s).2 = s := by
  refine ⟨?_, rfl, rfl, ?_⟩
  · by_cases h : (pyFalsy x_col || pyFalsy y_col) = true <;>
      simp [update_scatter_plot, h]
  · unfold update_summary
    by_cases h :
        (update_summary_filtered gender age_range.1 age_range.2 s.df).length == 0 <;>
      simp [h]

/-- C9: `update_scatter_plot` raises `PreventUpdate` exactly when the x-axis
or y-axis selection is missing (Python-falsy: `None` or empty); otherwise it
returns, without raising, the scatter figure of the filtered subset coloured
by `LUNG_CANCER` with the `x vs y` title and `AGE`/`GENDER` hover data. -/
theorem update_scatter_plot_prevent_update_iff (x_col y_col : Option String)
    (gender : String) (age_range : Int × Int) (s : AppState) :
    ((update_scatter_plot x_col y_col gender age_range s).1
        = CallbackResult.preventUpdate
      ↔ (pyFalsy x_col || pyFalsy y_col) = true)
    ∧ ((pyFalsy x_col || pyFalsy y_col) = true
      ∨ (update_scatter_plot x_col y_col gender age_range s).1
          = CallbackResult.ok
              (Figure.scatterFig
                (update_scatter_plot_filtered gender age_range.1 age_range.2 s.df)
                (x_col.getD "") (y_col.getD "") "LUNG_CANCER"
                (x_col.getD "" ++ " vs " ++ y_col.getD "") ["AGE", "GENDER"])) := by
  by_cases h : (pyFalsy x_col || pyFalsy y_col) = true <;>
    simp [update_scatter_plot, h]

/-- C3: the percentage division of `update_summary` is safe only when the
filtered subset is nonempty — the callback raises `ZeroDivisionError`
exactly when no row matches the selected gender and age range, and for
every dataset some gender selection and age range (here `All` with the
range [1, 0]) leaves the filtered subset empty, so the division by
`total_count` divides by zero. -/
theorem update_summary_division_safety (rows : List Row) :
    (∀ g lo hi, ((update_summary g (lo, hi) (AppState.mk rows)).1
        = CallbackResult.raised "ZeroDivisionError"
      ↔ update_summary_filtered g lo hi rows = []))
    ∧ ∃ g lo hi, update_summary_filtered g lo hi rows = []
        ∧ (update_summary g (lo, hi) (AppState.mk rows)).1
            = CallbackResult.raised "ZeroDivisionError" := by
  have key : ∀ g lo hi, ((update_summary g (lo, hi) (AppState.mk rows)).1
      = CallbackResult.raised "ZeroDivisionError"
    ↔ update_summary_filtered g lo hi rows = []) := by
    intro g lo hi
    unfold update_summary
    by_cases h : (update_summary_filtered g lo hi rows).length == 0
    · have h' : update_summary_filtered g lo hi rows = [] := by
        simpa [List.length_eq_zero] using h
      simp [h, h']
    · have h' : ¬ update_summary_filtered g lo hi rows = [] := by
        simpa [List.length_eq_zero] using h
      simp [h, h']
  refine ⟨key, "All", 1, 0, ?_, ?_⟩
  · unfold update_summary_filtered
    simp [List.filter_eq_nil_iff]
    intro r _ h1
    omega
  · rw [key]
    unfold update_summary_filtered
    simp [List.filter_eq_nil_iff]
    intro r _ h1
    omega

/-- C2 (evaluation of the defect): at a nonempty filtered subset —
gender `All`, age range [0, 200] over the sample dataset — `update_summary`
returns `None`: its body interpolates the statistics into the local string
`summary` and then ends without a `return` statement, so the callback's
returned value is not a text summary at all. -/
theorem update_summary_returns_no_text :
    update_summary "All" (0, 200) sampleState = (CallbackResult.ok none, sampleState) := rfl

/-- C4 (counterexample): at the selection x = `AGE`, y = `SMOKING`, gender
`All`, age range [0, 100] over the sample dataset, none of the figures the
dashboard produces is a pie chart — no filter selection yields a pie chart
alongside the scatter, bar and heatmap figures. -/
theorem no_pie_chart_at_sample_selection :
    ((figuresProduced (some "AGE") (some "SMOKING") "All" (0, 100) sampleState).any
      Figure.isPie) = false := rfl

/-- C4 (amended): the dashboard renders exactly three kinds of charts — a
scatter plot, a bar chart and a heatmap (with the scatter figure absent
exactly when a missing axis selection makes its callback raise
`PreventUpdate`); no pie chart is ever produced. -/
theorem charts_are_scatter_bar_heatmap (x_col y_col : Option String) (gender : String)
    (age_range : Int × Int) (s : AppState) :
    (figuresProduced x_col y_col gender age_range s).map Figure.kind
      = if pyFalsy x_col || pyFalsy y_col then [FigKind.bar, FigKind.heatmap]
        else [FigKind.scatter, FigKind.bar, FigKind.heatmap] := by
  by_cases h : (pyFalsy x_col || pyFalsy y_col) = true <;>
    simp [figuresProduced, update_scatter_plot, update_symptoms_bar_chart,
      update_correlation_heatmap, h, Figure.kind]

/-- C5 (counterexample): with the dataset's columns and age bounds
instantiated concretely, the dashboard layout contains no checklist
control. -/
theorem no_checklist_at_sample_layout :
    ((app_layout ["GENDER", "AGE", "SMOKING", "LUNG_CANCER"] 21 87).any
      Component.isChecklist) = false := rfl

/-- C5 (amended): for every dataset-column list and age bounds, the layout's
row-filtering inputs are dropdowns, a radio-items control and a range
slider; the layout contains no checklist control. -/
theorem layout_has_no_checklist (columns : List String) (ageMin ageMax : Int) :
    ((app_layout columns ageMin ageMax).any Component.isChecklist) = false
    ∧ ((app_layout columns ageMin ageMax).any Component.isRadioItems) = true
    ∧ ((app_layout columns ageMin ageMax).any Component.isRangeSlider) = true
    ∧ ((app_layout columns ageMin ageMax).any Component.isDropdown) = true :=
  ⟨rfl, rfl, rfl, rfl⟩

/-- C8 (counterexample): the repository's source does not construct two Dash
applications. -/
theorem not_two_dashboards :
    (repositoryDashApps.length == 2) = false := rfl

/-- C8 (amended): the repository implements exactly one interactive web
dashboard — `app.py`, its only source file, constructs a single Dash app
over the survey dataset. -/
theorem one_dashboard :
    repositoryDashApps.length = 1 := rfl
